import Mathlib

/-!
Verification of the monkey_3d_game controller core
(`controller_python/controller.py`) against its natural-language
specification.

The development shallowly embeds the automation core of
`MonkeyGameController`: the trial queue, the per-tick command frame,
the pause/retry supervisor and the four-phase automation state machine
driven by `loop`.  Python floats are modelled as rationals, the
telemetry dictionary as a structure with optional fields, and the
engine-facing shared-memory calls as an explicit list of emitted
operations per action.  Constants that live in the external
`monkey_shared` library (the default trial configuration and
`WIN_BLANK_DURATION_FRAMES`) are threaded through as parameters in a
`Consts` record, so every theorem holds for all values of those
external constants.
-/

namespace MonkeyGame

/-- The four states of the automation state machine
(`self.states = ['playing', 'won', 'animating', 'blank']`). -/
inductive Phase where
  | playing
  | won
  | animating
  | blank
deriving Repr, DecidableEq

/-- One trial configuration record, as built by `load_trials` /
`DEFAULT_CONFIG` (floats as rationals). -/
structure TrialConfig where
  seed : ℕ
  pyramid_type : ℕ
  base_radius : ℚ
  height : ℚ
  start_orient : ℚ
  target_door : ℕ
  colors : List (List ℚ)
  decorations_count : List ℕ
  decorations_size : List ℚ
  cosine_alignment_threshold : ℚ
  door_anim_fade_out : ℚ
  door_anim_stay_open : ℚ
  door_anim_fade_in : ℚ
  main_spotlight_intensity : ℚ
  max_spotlight_intensity : ℚ
  ambient_brightness : ℚ
deriving Repr, DecidableEq

/-- External constants imported from `monkey_shared`: the default
trial configuration (`DEFAULT_CONFIG`) and `WIN_BLANK_DURATION_FRAMES`.
Their concrete values live in the external Rust library, so the model
is parametric in them. -/
structure Consts where
  defaultConfig : TrialConfig
  winBlankFrames : ℕ
deriving Repr, DecidableEq

/-- The fields of the telemetry dictionary returned by
`read_game_state` that the automation logic reads.  `cosine_alignment`
defaults to `None` in `DEFAULT_STATE`; `cosine_alignment_threshold` is
not in `DEFAULT_STATE` at all, so `state.get(...)` yields an optional
value with the literal fallback `0.9` applied at the use site. -/
structure GameState where
  frame_number : ℕ
  is_animating : Bool
  cosine_alignment : Option ℚ
  cosine_alignment_threshold : Option ℚ
deriving Repr, DecidableEq

/-- The `self.triggers` dictionary: per-tick pulse intents. -/
structure Triggers where
  check : Bool
  reset : Bool
  blank : Bool
  pause : Bool
  resume : Bool
  animation_door : Bool
  retry : Bool
deriving Repr, DecidableEq

/-- All pulse intents false, as after `process_inputs_and_update_ui`
clears the dictionary. -/
def Triggers.cleared : Triggers :=
  ⟨false, false, false, false, false, false, false⟩

/-- The `self.inputs` dictionary: level-triggered rotate/zoom flags. -/
structure Inputs where
  rotate_left : Bool
  rotate_right : Bool
  zoom_in : Bool
  zoom_out : Bool
deriving Repr, DecidableEq

/-- The ten-flag record passed to `write_commands` each tick. -/
structure CommandFrame where
  rotate_left : Bool
  rotate_right : Bool
  zoom_in : Bool
  zoom_out : Bool
  check : Bool
  reset : Bool
  blank_screen : Bool
  stop_rendering : Bool
  resume_rendering : Bool
  animation_door : Bool
deriving Repr, DecidableEq

/-- The `self.paused_state` snapshot taken by `trigger_retry`. -/
structure PausedSnapshot where
  trial_idx : ℕ
  yaw : ℚ
  config : TrialConfig
deriving Repr, DecidableEq

/-- One engine-facing shared-memory write, in the order the controller
issues them. -/
inductive ShmOp where
  | writeCommands (fr : CommandFrame)
  | writeConfig (cfg : TrialConfig)
deriving Repr, DecidableEq

/-- A deferred action scheduled with `self.after`; `trigger_retry`
schedules exactly one `unblank` 200 ms later. -/
inductive Deferred where
  | unblank
deriving Repr, DecidableEq

/-- The mutable controller state relevant to the automation core. -/
structure Controller where
  phase : Phase
  inputs : Inputs
  triggers : Triggers
  trials : List TrialConfig
  current_trial_index : ℕ
  blank_start_frame : ℕ
  inferred_win : Bool
  paused_state : Option PausedSnapshot
  is_paused : Bool
deriving Repr, DecidableEq

/-- Placeholder record used only to make list indexing total; every
theorem that touches trial lookup assumes a non-empty trial list, as
guaranteed by `load_trials` for non-empty sources. -/
def junkTrial : TrialConfig :=
  ⟨0, 0, 0, 0, 0, 0, [], [], [], 0, 0, 0, 0, 0, 0, 0⟩

/-- `self.trials[i % len(self.trials)]`. -/
def trialAt (ts : List TrialConfig) (i : ℕ) : TrialConfig :=
  ts.getD (i % ts.length) junkTrial

/-- `(self.current_trial_index - 1) % len(self.trials)` — Python's
modulo on a possibly negative dividend is Euclidean, as is
`Int.emod`. -/
def activeIdx (i : ℕ) (len : ℕ) : ℕ :=
  (((i : ℤ) - 1) % (len : ℤ)).toNat

/-- The trial the engine is believed to be running
(`self.trials[(self.current_trial_index - 1) % len(self.trials)]`). -/
def activeTrial (c : Controller) : TrialConfig :=
  c.trials.getD (activeIdx c.current_trial_index c.trials.length) junkTrial

/-- The literal fallback `0.9` used in
`state.get("cosine_alignment_threshold", 0.9)`. -/
def FALLBACK_THRESHOLD : ℚ := 9 / 10

/-- The literal sentinel bound `1.5` in
`current_alignment <= 1.5`. -/
def SENTINEL_BOUND : ℚ := 3 / 2

/-- The frame assembled by `process_inputs_and_update_ui`:
continuous input flags plus the trigger dictionary, with the optional
`f_stop` / `f_resume` arguments OR-ed into the rendering flags. -/
def sendFrame (c : Controller) (fStop fResume : Bool) : CommandFrame :=
  { rotate_left := c.inputs.rotate_left
    rotate_right := c.inputs.rotate_right
    zoom_in := c.inputs.zoom_in
    zoom_out := c.inputs.zoom_out
    check := c.triggers.check
    reset := c.triggers.reset
    blank_screen := c.triggers.blank
    stop_rendering := c.triggers.pause || fStop
    resume_rendering := c.triggers.resume || fResume
    animation_door := c.triggers.animation_door }

/-- Result of evaluating the state-machine section of `loop`: updated
controller, the `auto_reset` / `auto_blank` / `auto_anim` flags, and
any config writes issued inside the section. -/
structure FsmOut where
  ctrl : Controller
  auto_reset : Bool
  auto_blank : Bool
  auto_anim : Bool
  cfgOps : List ShmOp
deriving Repr, DecidableEq

/-- The `NORMAL FSM LOGIC` section of `loop`, dispatching on the phase
held at entry to the `if`/`elif` chain. -/
def fsmStep (K : Consts) (c : Controller) (t : GameState) : FsmOut :=
  match c.phase with
  | .playing =>
      if c.triggers.check then
        match t.cosine_alignment with
        | some a =>
            if a ≤ SENTINEL_BOUND then
              if a > t.cosine_alignment_threshold.getD FALLBACK_THRESHOLD then
                ⟨{ c with inferred_win := true, phase := .won }, false, false, true, []⟩
              else
                ⟨c, false, false, true, []⟩
            else
              ⟨c, false, false, true, []⟩
        | none => ⟨c, false, false, true, []⟩
      else
        ⟨c, false, false, false, []⟩
  | .won =>
      if t.is_animating then
        ⟨{ c with phase := .animating }, false, false, false, []⟩
      else
        ⟨c, false, false, true, []⟩
  | .animating =>
      if t.is_animating then
        ⟨c, false, false, false, []⟩
      else if c.inferred_win then
        ⟨{ c with phase := .blank
                  blank_start_frame := t.frame_number
                  current_trial_index := c.current_trial_index + 1 },
         true, true, false,
         [ShmOp.writeConfig (trialAt c.trials (c.current_trial_index + 1))]⟩
      else
        ⟨{ c with phase := .playing }, false, false, false, []⟩
  | .blank =>
      if (t.frame_number : ℤ) - (c.blank_start_frame : ℤ) ≥ (K.winBlankFrames : ℤ) then
        ⟨{ c with phase := .playing }, false, true, false, []⟩
      else
        ⟨c, false, false, false, []⟩

/-- The `Apply triggers` section of `loop`: OR the auto flags into the
trigger dictionary. -/
def applyAutos (c : Controller) (aReset aBlank aStop aResume aAnim : Bool) : Controller :=
  { c with triggers :=
      { c.triggers with
          reset := c.triggers.reset || aReset
          blank := c.triggers.blank || aBlank
          pause := c.triggers.pause || aStop
          resume := c.triggers.resume || aResume
          animation_door := c.triggers.animation_door || aAnim } }

/-- One tick of `loop`: the resulting controller state, the
transmitted command frame, and the engine-facing writes in order. -/
structure TickOut where
  ctrl : Controller
  frame : CommandFrame
  ops : List ShmOp
deriving Repr, DecidableEq

/-- One invocation of `loop` on fresh telemetry `t`.  The pause/resume
edge logic runs first; a tick that starts paused with no resume edge
transmits a frame and returns without evaluating the state machine
(the rising pause edge itself falls through to the state machine, as
the Python `pass` does). -/
def tick (K : Consts) (c : Controller) (t : GameState) : TickOut :=
  let pauseEdge := c.triggers.pause && !c.is_paused
  let resumeEdge := !pauseEdge && (c.triggers.resume && c.is_paused)
  let c1 : Controller :=
    if pauseEdge then { c with is_paused := true }
    else if resumeEdge then { c with is_paused := false }
    else c
  if c1.is_paused && !pauseEdge && !resumeEdge then
    let fr := sendFrame c1 false false
    ⟨{ c1 with triggers := Triggers.cleared }, fr, [ShmOp.writeCommands fr]⟩
  else
    let o := fsmStep K c1 t
    let c2 := applyAutos o.ctrl o.auto_reset o.auto_blank pauseEdge resumeEdge o.auto_anim
    let fr := sendFrame c2 false false
    ⟨{ c2 with triggers := Triggers.cleared }, fr, o.cfgOps ++ [ShmOp.writeCommands fr]⟩

/-- The input layer re-arming trigger flags between two ticks (key
press handlers setting entries of `self.triggers`); the previous tick
left every flag false, so the re-armed dictionary is exactly `i`. -/
def armTriggers (c : Controller) (i : Triggers) : Controller :=
  { c with triggers := i }

/-- The command frame `trigger_reset_config` sends before its config
write: current continuous inputs, `reset=True`, all other pulses
false. -/
def resetCmdFrame (c : Controller) : CommandFrame :=
  { rotate_left := c.inputs.rotate_left
    rotate_right := c.inputs.rotate_right
    zoom_in := c.inputs.zoom_in
    zoom_out := c.inputs.zoom_out
    check := false
    reset := true
    blank_screen := false
    stop_rendering := false
    resume_rendering := false
    animation_door := false }

/-- The `trigger_reset_config` key action: fetch the current trial,
advance the index, then send one commands write (with `reset=True` and
every other pulse false) immediately followed by the config write. -/
def trigger_reset_config (c : Controller) : Controller × List ShmOp :=
  ({ c with current_trial_index := c.current_trial_index + 1 },
   [ShmOp.writeCommands (resetCmdFrame c),
    ShmOp.writeConfig (trialAt c.trials c.current_trial_index)])

/-- The `trigger_retry` key action: latch the retry trigger, pause,
snapshot the active trial, write its original config (no commands
write precedes it inside this action), arm reset and blank pulses, and
schedule one deferred unblank. -/
def trigger_retry (c : Controller) : Controller × List ShmOp × List Deferred :=
  let idx := activeIdx c.current_trial_index c.trials.length
  let trial := c.trials.getD idx junkTrial
  let c' : Controller :=
    { c with
        triggers := { c.triggers with retry := true, reset := true, blank := true }
        is_paused := true
        paused_state := some ⟨idx, trial.start_orient, trial⟩ }
  (c', [ShmOp.writeConfig trial], [Deferred.unblank])

/-- The deferred `unblank_callback`: re-arm the blank pulse once. -/
def unblank_callback (c : Controller) : Controller :=
  { c with triggers := { c.triggers with blank := true } }

/-- Whether the pause/resume gate lets a tick reach the state-machine
section: every unpaused tick does (a rising pause edge falls through),
and a paused tick does exactly when the resume trigger is armed. -/
def reachesFsm (c : Controller) : Bool :=
  !c.is_paused || c.triggers.resume

/-- The state-machine conditions that force an `animation_door` pulse
this tick. -/
def animDoorForce (c : Controller) (t : GameState) : Bool :=
  (decide (c.phase = .playing) && c.triggers.check) ||
  (decide (c.phase = .won) && !t.is_animating)

/-- The state-machine condition that forces a `reset` pulse this tick:
the win-path transition out of Animating. -/
def resetForce (c : Controller) (t : GameState) : Bool :=
  decide (c.phase = .animating) && !t.is_animating && c.inferred_win

/-- The state-machine conditions that force a `blank_screen` pulse
this tick: the win-path transition out of Animating, or the timeout
transition out of Blank. -/
def blankForce (K : Consts) (c : Controller) (t : GameState) : Bool :=
  resetForce c t ||
  (decide (c.phase = .blank) &&
    decide ((t.frame_number : ℤ) - (c.blank_start_frame : ℤ) ≥ (K.winBlankFrames : ℤ)))

/-- One non-blank line of the trial source: either it parses into a
trial record (`json.loads` plus required-key lookups succeed) or it
raises. -/
inductive LineParse where
  | ok (t : TrialConfig)
  | bad
deriving Repr, DecidableEq

/-- The trial source seen by `load_trials`: an unreadable/missing file
(`open` raises), or the sequence of its non-blank lines. -/
inductive TrialSource where
  | unreadable
  | readable (ls : List LineParse)
deriving Repr, DecidableEq

/-- What `load_trials` logs: the success message with the loaded count
or the distinct fallback message. -/
inductive LoadLog where
  | loaded (n : ℕ)
  | failed
deriving Repr, DecidableEq

/-- The accumulation loop of `load_trials`: collect parsed records,
`none` when some line raises. -/
def parseLines : List LineParse → Option (List TrialConfig)
  | [] => some []
  | .ok t :: rest => (parseLines rest).map (t :: ·)
  | .bad :: _ => none

/-- `load_trials`: any exception while reading or parsing replaces the
accumulated list with the singleton `[DEFAULT_CONFIG]` and logs the
failure message; otherwise the collected records are returned (however
many there were) with the success message. -/
def load_trials (K : Consts) : TrialSource → List TrialConfig × LoadLog
  | .unreadable => ([K.defaultConfig], .failed)
  | .readable ls =>
      match parseLines ls with
      | some ts => (ts, .loaded ts.length)
      | none => ([K.defaultConfig], .failed)

/-- The trial queue of §4.2, as the code realises it: the loaded list
plus the monotone `current_trial_index`; `current`, `advance` and
`active` are the expressions at lines 575/649, 574/650 and 693. -/
structure TrialQueue where
  trials : List TrialConfig
  index : ℕ
deriving Repr, DecidableEq

/-- `self.trials[self.current_trial_index % len(self.trials)]`. -/
def TrialQueue.current (q : TrialQueue) : TrialConfig :=
  q.trials.getD (q.index % q.trials.length) junkTrial

/-- `self.current_trial_index += 1`. -/
def TrialQueue.advance (q : TrialQueue) : TrialQueue :=
  { q with index := q.index + 1 }

/-- `self.trials[(self.current_trial_index - 1) % len(self.trials)]`. -/
def TrialQueue.active (q : TrialQueue) : TrialConfig :=
  q.trials.getD (activeIdx q.index q.trials.length) junkTrial

/-- `advance` iterated `n` times. -/
def TrialQueue.advanceN (q : TrialQueue) : ℕ → TrialQueue
  | 0 => q
  | n + 1 => (q.advanceN n).advance

/-- The local win-inference condition read off the freshest telemetry:
the alignment sample is present, within the 1.5 sentinel bound, and
strictly above the echoed threshold (falling back to the literal
default when the echo is absent). -/
def winCondition (t : GameState) : Prop :=
  ∃ a, t.cosine_alignment = some a ∧ a ≤ SENTINEL_BOUND ∧
    t.cosine_alignment_threshold.getD FALLBACK_THRESHOLD < a

/-! ### Structural lemmas about the state-machine section -/

/-- The state-machine section never touches the trigger dictionary
(only the `auto_*` locals carry pulse intent out of it). -/
theorem fsmStep_triggers (K : Consts) (c : Controller) (t : GameState) :
    (fsmStep K c t).ctrl.triggers = c.triggers := by
  obtain ⟨ph, ins, trg, trls, idx, bsf, iw, ps, ip⟩ := c
  cases ph <;> simp only [fsmStep] <;> (repeat' split) <;> rfl

/-- The state-machine section never touches the continuous inputs. -/
theorem fsmStep_inputs (K : Consts) (c : Controller) (t : GameState) :
    (fsmStep K c t).ctrl.inputs = c.inputs := by
  obtain ⟨ph, ins, trg, trls, idx, bsf, iw, ps, ip⟩ := c
  cases ph <;> simp only [fsmStep] <;> (repeat' split) <;> rfl

/-- The state-machine section never touches the trial list. -/
theorem fsmStep_trials (K : Consts) (c : Controller) (t : GameState) :
    (fsmStep K c t).ctrl.trials = c.trials := by
  obtain ⟨ph, ins, trg, trls, idx, bsf, iw, ps, ip⟩ := c
  cases ph <;> simp only [fsmStep] <;> (repeat' split) <;> rfl

/-- The state-machine section never touches the pause latch. -/
theorem fsmStep_is_paused (K : Consts) (c : Controller) (t : GameState) :
    (fsmStep K c t).ctrl.is_paused = c.is_paused := by
  obtain ⟨ph, ins, trg, trls, idx, bsf, iw, ps, ip⟩ := c
  cases ph <;> simp only [fsmStep] <;> (repeat' split) <;> rfl

/-- The `auto_anim` flag computed by the state-machine section is
exactly `animDoorForce`. -/
theorem fsmStep_auto_anim (K : Consts) (c : Controller) (t : GameState) :
    (fsmStep K c t).auto_anim = animDoorForce c t := by
  obtain ⟨ph, ins, trg, trls, idx, bsf, iw, ps, ip⟩ := c
  cases ph <;> simp only [fsmStep, animDoorForce] <;> (repeat' split) <;> simp_all

/-- The `auto_reset` flag computed by the state-machine section is
exactly `resetForce`. -/
theorem fsmStep_auto_reset (K : Consts) (c : Controller) (t : GameState) :
    (fsmStep K c t).auto_reset = resetForce c t := by
  obtain ⟨ph, ins, trg, trls, idx, bsf, iw, ps, ip⟩ := c
  cases ph <;> simp only [fsmStep, resetForce] <;> (repeat' split) <;> simp_all

/-- The `auto_blank` flag computed by the state-machine section is
exactly `blankForce`. -/
theorem fsmStep_auto_blank (K : Consts) (c : Controller) (t : GameState) :
    (fsmStep K c t).auto_blank = blankForce K c t := by
  obtain ⟨ph, ins, trg, trls, idx, bsf, iw, ps, ip⟩ := c
  cases ph <;> simp only [fsmStep, blankForce, resetForce] <;> (repeat' split) <;> simp_all

/-- A tick that starts with the pause latch down takes the
state-machine path with the latch raised exactly when the pause
trigger is armed. -/
theorem tick_unpaused (K : Consts) (c : Controller) (t : GameState)
    (h : c.is_paused = false) :
    tick K c t =
      (let o := fsmStep K { c with is_paused := c.triggers.pause } t
       let c2 := applyAutos o.ctrl o.auto_reset o.auto_blank c.triggers.pause false o.auto_anim
       let fr := sendFrame c2 false false
       ⟨{ c2 with triggers := Triggers.cleared }, fr,
        o.cfgOps ++ [ShmOp.writeCommands fr]⟩) := by
  obtain ⟨ph, ins, trg, trls, idx, bsf, iw, ps, ip⟩ := c
  simp only at h
  subst h
  cases hpp : trg.pause <;> simp [tick, hpp]

/-- A tick that starts paused with no resume edge transmits the
re-armed frame, clears the triggers and does nothing else. -/
theorem tick_paused (K : Consts) (c : Controller) (t : GameState)
    (h : c.is_paused = true) (hr : c.triggers.resume = false) :
    tick K c t =
      ⟨{ c with triggers := Triggers.cleared }, sendFrame c false false,
       [ShmOp.writeCommands (sendFrame c false false)]⟩ := by
  simp [tick, h, hr]

/-- A tick that starts paused with the resume trigger armed drops the
latch and takes the state-machine path. -/
theorem tick_resume (K : Consts) (c : Controller) (t : GameState)
    (h : c.is_paused = true) (hr : c.triggers.resume = true) :
    tick K c t =
      (let o := fsmStep K { c with is_paused := false } t
       let c2 := applyAutos o.ctrl o.auto_reset o.auto_blank false true o.auto_anim
       let fr := sendFrame c2 false false
       ⟨{ c2 with triggers := Triggers.cleared }, fr,
        o.cfgOps ++ [ShmOp.writeCommands fr]⟩) := by
  obtain ⟨ph, ins, trg, trls, idx, bsf, iw, ps, ip⟩ := c
  simp only at h hr
  subst h
  simp [tick, hr]

/-- Every tick ends with `process_inputs_and_update_ui` clearing the
whole trigger dictionary. -/
theorem tick_triggers_cleared (K : Consts) (c : Controller) (t : GameState) :
    (tick K c t).ctrl.triggers = Triggers.cleared := by
  by_cases hp : c.is_paused = true
  · by_cases hr : c.triggers.resume = true
    · rw [tick_resume K c t hp hr]
    · rw [tick_paused K c t hp (by simpa using hr)]
  · rw [tick_unpaused K c t (by simpa using hp)]

/-- A tick never changes the continuous input flags. -/
theorem tick_preserves_inputs (K : Consts) (c : Controller) (t : GameState) :
    (tick K c t).ctrl.inputs = c.inputs := by
  by_cases hp : c.is_paused = true
  · by_cases hr : c.triggers.resume = true
    · rw [tick_resume K c t hp hr]
      simpa [applyAutos] using fsmStep_inputs K { c with is_paused := false } t
    · rw [tick_paused K c t hp (by simpa using hr)]
  · rw [tick_unpaused K c t (by simpa using hp)]
    simpa [applyAutos] using fsmStep_inputs K { c with is_paused := c.triggers.pause } t

/-- The transmitted continuous flags are exactly the level-triggered
input flags. -/
theorem tick_frame_continuous (K : Consts) (c : Controller) (t : GameState) :
    (tick K c t).frame.rotate_left = c.inputs.rotate_left ∧
    (tick K c t).frame.rotate_right = c.inputs.rotate_right ∧
    (tick K c t).frame.zoom_in = c.inputs.zoom_in ∧
    (tick K c t).frame.zoom_out = c.inputs.zoom_out := by
  by_cases hp : c.is_paused = true
  · by_cases hr : c.triggers.resume = true
    · rw [tick_resume K c t hp hr]
      have := fsmStep_inputs K { c with is_paused := false } t
      simp [applyAutos, sendFrame, this]
    · rw [tick_paused K c t hp (by simpa using hr)]
      simp [sendFrame]
  · rw [tick_unpaused K c t (by simpa using hp)]
    have := fsmStep_inputs K { c with is_paused := c.triggers.pause } t
    simp [applyAutos, sendFrame, this]

/-- The transmitted `check` flag is exactly the armed check trigger;
no state-machine branch forces it. -/
theorem tick_frame_check (K : Consts) (c : Controller) (t : GameState) :
    (tick K c t).frame.check = c.triggers.check := by
  by_cases hp : c.is_paused = true
  · by_cases hr : c.triggers.resume = true
    · rw [tick_resume K c t hp hr]
      have := fsmStep_triggers K { c with is_paused := false } t
      simp [applyAutos, sendFrame, this]
    · rw [tick_paused K c t hp (by simpa using hr)]
      simp [sendFrame]
  · rw [tick_unpaused K c t (by simpa using hp)]
    have := fsmStep_triggers K { c with is_paused := c.triggers.pause } t
    simp [applyAutos, sendFrame, this]

/-- The transmitted `stop_rendering` flag is exactly the armed pause
trigger (the rising-edge `auto_stop` re-sets a flag that is already
true). -/
theorem tick_frame_stop (K : Consts) (c : Controller) (t : GameState) :
    (tick K c t).frame.stop_rendering = c.triggers.pause := by
  by_cases hp : c.is_paused = true
  · by_cases hr : c.triggers.resume = true
    · rw [tick_resume K c t hp hr]
      have := fsmStep_triggers K { c with is_paused := false } t
      simp [applyAutos, sendFrame, this]
    · rw [tick_paused K c t hp (by simpa using hr)]
      simp [sendFrame]
  · rw [tick_unpaused K c t (by simpa using hp)]
    have := fsmStep_triggers K { c with is_paused := c.triggers.pause } t
    simp [applyAutos, sendFrame, this]

/-- The transmitted `resume_rendering` flag is exactly the armed
resume trigger. -/
theorem tick_frame_resume (K : Consts) (c : Controller) (t : GameState) :
    (tick K c t).frame.resume_rendering = c.triggers.resume := by
  by_cases hp : c.is_paused = true
  · by_cases hr : c.triggers.resume = true
    · rw [tick_resume K c t hp hr]
      have := fsmStep_triggers K { c with is_paused := false } t
      simp [applyAutos, sendFrame, this, hr]
    · rw [tick_paused K c t hp (by simpa using hr)]
      simp [sendFrame]
  · rw [tick_unpaused K c t (by simpa using hp)]
    have := fsmStep_triggers K { c with is_paused := c.triggers.pause } t
    simp [applyAutos, sendFrame, this]

/-- The transmitted `animation_door` flag is the armed trigger OR-ed
with the state-machine force, gated by the pause supervisor. -/
theorem tick_frame_anim (K : Consts) (c : Controller) (t : GameState) :
    (tick K c t).frame.animation_door =
      (c.triggers.animation_door || (reachesFsm c && animDoorForce c t)) := by
  by_cases hp : c.is_paused = true
  · by_cases hr : c.triggers.resume = true
    · rw [tick_resume K c t hp hr]
      have h1 := fsmStep_triggers K { c with is_paused := false } t
      have h2 := fsmStep_auto_anim K { c with is_paused := false } t
      simp [applyAutos, sendFrame, h1, h2, reachesFsm, hp, hr, animDoorForce]
    · rw [tick_paused K c t hp (by simpa using hr)]
      simp [sendFrame, reachesFsm, hp, by simpa using hr]
  · rw [tick_unpaused K c t (by simpa using hp)]
    have h1 := fsmStep_triggers K { c with is_paused := c.triggers.pause } t
    have h2 := fsmStep_auto_anim K { c with is_paused := c.triggers.pause } t
    simp [applyAutos, sendFrame, h1, h2, reachesFsm, by simpa using hp, animDoorForce]

/-- The transmitted `reset` flag is the armed trigger OR-ed with the
state-machine force, gated by the pause supervisor. -/
theorem tick_frame_reset (K : Consts) (c : Controller) (t : GameState) :
    (tick K c t).frame.reset =
      (c.triggers.reset || (reachesFsm c && resetForce c t)) := by
  by_cases hp : c.is_paused = true
  · by_cases hr : c.triggers.resume = true
    · rw [tick_resume K c t hp hr]
      have h1 := fsmStep_triggers K { c with is_paused := false } t
      have h2 := fsmStep_auto_reset K { c with is_paused := false } t
      simp [applyAutos, sendFrame, h1, h2, reachesFsm, hp, hr, resetForce]
    · rw [tick_paused K c t hp (by simpa using hr)]
      simp [sendFrame, reachesFsm, hp, by simpa using hr]
  · rw [tick_unpaused K c t (by simpa using hp)]
    have h1 := fsmStep_triggers K { c with is_paused := c.triggers.pause } t
    have h2 := fsmStep_auto_reset K { c with is_paused := c.triggers.pause } t
    simp [applyAutos, sendFrame, h1, h2, reachesFsm, by simpa using hp, resetForce]

/-- The transmitted `blank_screen` flag is the armed trigger OR-ed
with the state-machine force, gated by the pause supervisor. -/
theorem tick_frame_blank (K : Consts) (c : Controller) (t : GameState) :
    (tick K c t).frame.blank_screen =
      (c.triggers.blank || (reachesFsm c && blankForce K c t)) := by
  by_cases hp : c.is_paused = true
  · by_cases hr : c.triggers.resume = true
    · rw [tick_resume K c t hp hr]
      have h1 := fsmStep_triggers K { c with is_paused := false } t
      have h2 := fsmStep_auto_blank K { c with is_paused := false } t
      simp [applyAutos, sendFrame, h1, h2, reachesFsm, hp, hr, blankForce, resetForce]
    · rw [tick_paused K c t hp (by simpa using hr)]
      simp [sendFrame, reachesFsm, hp, by simpa using hr]
  · rw [tick_unpaused K c t (by simpa using hp)]
    have h1 := fsmStep_triggers K { c with is_paused := c.triggers.pause } t
    have h2 := fsmStep_auto_blank K { c with is_paused := c.triggers.pause } t
    simp [applyAutos, sendFrame, h1, h2, reachesFsm, by simpa using hp, blankForce, resetForce]

/-! ### Claim C2 -/

/-- Claim C2: every pulse flag transmitted true in one tick's command
frame is transmitted false on the immediately following tick unless it
is re-armed by input (`i`) or forced by the state-machine logic that
tick; the trigger dictionary is cleared after every transmission, and
the continuous rotate/zoom flags persist untouched by the tick. -/
theorem C2_pulse_nonpersistence (K : Consts) (c : Controller) (t t' : GameState)
    (i : Triggers) :
    (tick K c t).ctrl.triggers = Triggers.cleared ∧
    (tick K c t).ctrl.inputs = c.inputs ∧
    ((tick K (armTriggers (tick K c t).ctrl i) t').frame.check = i.check ∧
     (tick K (armTriggers (tick K c t).ctrl i) t').frame.stop_rendering = i.pause ∧
     (tick K (armTriggers (tick K c t).ctrl i) t').frame.resume_rendering = i.resume ∧
     (tick K (armTriggers (tick K c t).ctrl i) t').frame.animation_door =
       (i.animation_door ||
         (reachesFsm (armTriggers (tick K c t).ctrl i) &&
           animDoorForce (armTriggers (tick K c t).ctrl i) t')) ∧
     (tick K (armTriggers (tick K c t).ctrl i) t').frame.reset =
       (i.reset ||
         (reachesFsm (armTriggers (tick K c t).ctrl i) &&
           resetForce (armTriggers (tick K c t).ctrl i) t')) ∧
     (tick K (armTriggers (tick K c t).ctrl i) t').frame.blank_screen =
       (i.blank ||
         (reachesFsm (armTriggers (tick K c t).ctrl i) &&
           blankForce K (armTriggers (tick K c t).ctrl i) t'))) := by
  refine ⟨tick_triggers_cleared K c t, tick_preserves_inputs K c t, ?_, ?_, ?_, ?_, ?_, ?_⟩
  · exact tick_frame_check K _ t'
  · exact tick_frame_stop K _ t'
  · exact tick_frame_resume K _ t'
  · exact tick_frame_anim K _ t'
  · exact tick_frame_reset K _ t'
  · exact tick_frame_blank K _ t'

/-! ### Claim C1 -/

/-- Claim C1: on an unpaused tick in the Playing phase with the check
pulse armed, the machine moves to Won with win inferred recorded true
iff the telemetry's alignment is present, within the 1.5 sentinel
bound, and strictly above the echoed threshold (defaulted when
absent); otherwise the phase stays Playing and win inferred stays
false; in either case the transmitted frame carries a forced
`animation_door` pulse. -/
theorem C1_win_inference (K : Consts) (c : Controller) (t : GameState)
    (hph : c.phase = .playing) (hck : c.triggers.check = true)
    (hp : c.is_paused = false) (hiw : c.inferred_win = false) :
    (((tick K c t).ctrl.phase = .won ∧ (tick K c t).ctrl.inferred_win = true) ↔
      winCondition t) ∧
    (¬ winCondition t →
      (tick K c t).ctrl.phase = .playing ∧ (tick K c t).ctrl.inferred_win = false) ∧
    (tick K c t).frame.animation_door = true := by
  refine ⟨?_, ?_, ?_⟩
  · obtain ⟨ph, ins, trg, trls, idx, bsf, iw, ps, ip⟩ := c
    simp only at hph hck hp hiw
    subst hph hp hiw
    cases hpp : trg.pause <;>
      rcases hal : t.cosine_alignment with _ | a <;>
      simp only [tick, fsmStep, hck, hpp, hal, applyAutos, sendFrame,
        Bool.and_false, Bool.and_true, Bool.not_false, Bool.not_true, Bool.false_and,
        Bool.true_and, Bool.or_false, Bool.false_or, if_true, if_false] <;>
      (repeat' split) <;>
      simp_all [winCondition]
  · obtain ⟨ph, ins, trg, trls, idx, bsf, iw, ps, ip⟩ := c
    simp only at hph hck hp hiw
    subst hph hp hiw
    intro hw
    cases hpp : trg.pause <;>
      rcases hal : t.cosine_alignment with _ | a <;>
      simp only [tick, fsmStep, hck, hpp, hal, applyAutos, sendFrame,
        Bool.and_false, Bool.and_true, Bool.not_false, Bool.not_true, Bool.false_and,
        Bool.true_and, Bool.or_false, Bool.false_or, if_true, if_false] <;>
      (repeat' split) <;>
      simp_all [winCondition]
  · rw [tick_frame_anim K c t]
    simp [reachesFsm, animDoorForce, hp, hph, hck]

/-! ### Concrete fixtures for witnesses and counterexamples -/

/-- A concrete instantiation of the external constants. -/
def K0 : Consts := ⟨junkTrial, 60⟩

/-- A concrete trial record. -/
def trialA : TrialConfig := { junkTrial with seed := 10, start_orient := 7 }

/-- A second, distinct concrete trial record. -/
def trialB : TrialConfig := { junkTrial with seed := 20, start_orient := 9 }

/-- No keys held. -/
def noInputs : Inputs := ⟨false, false, false, false⟩

/-- A concrete controller on a winning check tick. -/
def c1w : Controller :=
  { phase := .playing
    inputs := noInputs
    triggers := { Triggers.cleared with check := true }
    trials := [trialA]
    current_trial_index := 0
    blank_start_frame := 0
    inferred_win := false
    paused_state := none
    is_paused := false }

/-- Telemetry with a good alignment sample and no echoed threshold. -/
def t1w : GameState :=
  { frame_number := 100
    is_animating := false
    cosine_alignment := some (19 / 20)
    cosine_alignment_threshold := none }

/-- Witness for C1 at a concrete winning check tick. -/
theorem C1_win_inference_witness :
    (((tick K0 c1w t1w).ctrl.phase = .won ∧ (tick K0 c1w t1w).ctrl.inferred_win = true) ↔
      winCondition t1w) ∧
    (¬ winCondition t1w →
      (tick K0 c1w t1w).ctrl.phase = .playing ∧
        (tick K0 c1w t1w).ctrl.inferred_win = false) ∧
    (tick K0 c1w t1w).frame.animation_door = true :=
  C1_win_inference K0 c1w t1w rfl rfl rfl rfl

/-! ### Claim C3 -/

/-- Claim C3: on an unpaused Animating tick whose telemetry reports
the animation finished, a recorded win moves the machine to Blank,
stamps the blank-start frame, advances the trial queue by one, writes
the new current trial's config (before the tick's command write) and
transmits forced reset and blank pulses; without a recorded win the
machine drops straight back to Playing with no trial advance and no
config write. -/
theorem C3_animating_exit (K : Consts) (c : Controller) (t : GameState)
    (hph : c.phase = .animating) (ha : t.is_animating = false)
    (hp : c.is_paused = false) :
    (c.inferred_win = true →
      (tick K c t).ctrl.phase = .blank ∧
      (tick K c t).ctrl.blank_start_frame = t.frame_number ∧
      (tick K c t).ctrl.current_trial_index = c.current_trial_index + 1 ∧
      (tick K c t).ops =
        [ShmOp.writeConfig (trialAt c.trials (c.current_trial_index + 1)),
         ShmOp.writeCommands (tick K c t).frame] ∧
      (tick K c t).frame.reset = true ∧
      (tick K c t).frame.blank_screen = true) ∧
    (c.inferred_win = false →
      (tick K c t).ctrl.phase = .playing ∧
      (tick K c t).ctrl.current_trial_index = c.current_trial_index ∧
      (tick K c t).ops = [ShmOp.writeCommands (tick K c t).frame]) := by
  obtain ⟨ph, ins, trg, trls, idx, bsf, iw, ps, ip⟩ := c
  simp only at hph ha hp
  subst hph hp
  cases iw <;> cases hpp : trg.pause <;>
    simp [tick, fsmStep, ha, hpp, applyAutos, sendFrame, trialAt]

/-- A concrete controller mid-animation after an inferred win. -/
def c3w : Controller :=
  { phase := .animating
    inputs := noInputs
    triggers := Triggers.cleared
    trials := [trialA, trialB]
    current_trial_index := 0
    blank_start_frame := 0
    inferred_win := true
    paused_state := none
    is_paused := false }

/-- Telemetry reporting the animation finished. -/
def t3w : GameState :=
  { frame_number := 42
    is_animating := false
    cosine_alignment := none
    cosine_alignment_threshold := none }

/-- Witness for C3 at a concrete end-of-animation tick. -/
theorem C3_animating_exit_witness :
    (c3w.inferred_win = true →
      (tick K0 c3w t3w).ctrl.phase = .blank ∧
      (tick K0 c3w t3w).ctrl.blank_start_frame = t3w.frame_number ∧
      (tick K0 c3w t3w).ctrl.current_trial_index = c3w.current_trial_index + 1 ∧
      (tick K0 c3w t3w).ops =
        [ShmOp.writeConfig (trialAt c3w.trials (c3w.current_trial_index + 1)),
         ShmOp.writeCommands (tick K0 c3w t3w).frame] ∧
      (tick K0 c3w t3w).frame.reset = true ∧
      (tick K0 c3w t3w).frame.blank_screen = true) ∧
    (c3w.inferred_win = false →
      (tick K0 c3w t3w).ctrl.phase = .playing ∧
      (tick K0 c3w t3w).ctrl.current_trial_index = c3w.current_trial_index ∧
      (tick K0 c3w t3w).ops = [ShmOp.writeCommands (tick K0 c3w t3w).frame]) :=
  C3_animating_exit K0 c3w t3w rfl rfl rfl

/-! ### Claim C5 -/

/-- A concrete controller in the Blank phase exactly at the timeout
(frame 70, blank started at 10, duration 60), nothing armed. -/
def c5x : Controller :=
  { phase := .blank
    inputs := noInputs
    triggers := Triggers.cleared
    trials := [trialA]
    current_trial_index := 1
    blank_start_frame := 10
    inferred_win := true
    paused_state := none
    is_paused := false }

/-- Telemetry at the first frame satisfying the blank timeout. -/
def t5x : GameState :=
  { frame_number := 70
    is_animating := false
    cosine_alignment := none
    cosine_alignment_threshold := none }

/-- Counterexample to C5 as stated: on the Blank-to-Playing timeout
tick the transmitted frame carries no reset pulse — the code forces a
`blank_screen` pulse instead (line 597 sets `auto_blank`, not
`auto_reset`). -/
theorem C5_cex :
    (tick K0 c5x t5x).ctrl.phase = .playing ∧
    (tick K0 c5x t5x).frame.reset = false ∧
    (tick K0 c5x t5x).frame.blank_screen = true := by
  refine ⟨rfl, rfl, rfl⟩

/-- Claim C5 (amended): on an unpaused Blank tick the transition back
to Playing fires iff `frame_number - blank_start_frame` has reached
`WIN_BLANK_DURATION_FRAMES` — not one frame earlier — and on that
transition a `blank_screen` pulse is forced while the reset flag is
transmitted only if it was independently armed. -/
theorem C5_blank_timeout (K : Consts) (c : Controller) (t : GameState)
    (hph : c.phase = .blank) (hp : c.is_paused = false) :
    ((tick K c t).ctrl.phase = .playing ↔
      (K.winBlankFrames : ℤ) ≤ (t.frame_number : ℤ) - (c.blank_start_frame : ℤ)) ∧
    ((K.winBlankFrames : ℤ) ≤ (t.frame_number : ℤ) - (c.blank_start_frame : ℤ) →
      (tick K c t).frame.blank_screen = true) ∧
    (tick K c t).frame.reset = c.triggers.reset := by
  refine ⟨?_, ?_, ?_⟩
  · obtain ⟨ph, ins, trg, trls, idx, bsf, iw, ps, ip⟩ := c
    simp only at hph hp
    subst hph hp
    cases hpp : trg.pause <;>
      simp only [tick, fsmStep, hpp, applyAutos, sendFrame,
        Bool.and_false, Bool.and_true, Bool.not_false, Bool.not_true, Bool.false_and,
        Bool.true_and, Bool.or_false, Bool.false_or, if_true, if_false] <;>
      (repeat' split) <;>
      simp_all [ge_iff_le]
  · intro hge
    rw [tick_frame_blank K c t]
    simp [reachesFsm, blankForce, hp, hph, hge, ge_iff_le]
  · rw [tick_frame_reset K c t]
    simp [reachesFsm, resetForce, hp, hph]

/-- A concrete controller one frame before the blank timeout. -/
def c5w : Controller :=
  { phase := .blank
    inputs := noInputs
    triggers := Triggers.cleared
    trials := [trialA]
    current_trial_index := 1
    blank_start_frame := 10
    inferred_win := true
    paused_state := none
    is_paused := false }

/-- Telemetry one frame before the blank timeout fires. -/
def t5w : GameState :=
  { frame_number := 69
    is_animating := false
    cosine_alignment := none
    cosine_alignment_threshold := none }

/-- Witness for the amended C5 one frame before the timeout. -/
theorem C5_blank_timeout_witness :
    ((tick K0 c5w t5w).ctrl.phase = .playing ↔
      (K0.winBlankFrames : ℤ) ≤ (t5w.frame_number : ℤ) - (c5w.blank_start_frame : ℤ)) ∧
    ((K0.winBlankFrames : ℤ) ≤ (t5w.frame_number : ℤ) - (c5w.blank_start_frame : ℤ) →
      (tick K0 c5w t5w).frame.blank_screen = true) ∧
    (tick K0 c5w t5w).frame.reset = c5w.triggers.reset :=
  C5_blank_timeout K0 c5w t5w rfl rfl

/-! ### Claim C6 -/

/-- A concrete controller on a Pause rising-edge tick with a winning
check armed at the same time. -/
def c6x : Controller :=
  { phase := .playing
    inputs := noInputs
    triggers := { Triggers.cleared with check := true, pause := true }
    trials := [trialA]
    current_trial_index := 0
    blank_start_frame := 0
    inferred_win := false
    paused_state := none
    is_paused := false }

/-- Telemetry with a winning alignment sample. -/
def t6x : GameState :=
  { frame_number := 0
    is_animating := false
    cosine_alignment := some (19 / 20)
    cosine_alignment_threshold := none }

/-- Counterexample to C6 as stated: on the very tick whose Pause
rising edge sets `paused = true`, the state machine is still evaluated
(the Python `pass` falls through), so a phase transition to Won
happens on the pause tick itself. -/
theorem C6_cex :
    (tick K0 c6x t6x).ctrl.is_paused = true ∧
    (tick K0 c6x t6x).ctrl.phase = .won := by
  constructor <;>
    norm_num [tick, fsmStep, applyAutos, sendFrame, c6x, t6x, Triggers.cleared,
      SENTINEL_BOUND, FALLBACK_THRESHOLD, K0, noInputs, trialA, junkTrial]

/-- Claim C6 (amended): on every tick that begins with the pause latch
already set and no resume edge armed, the state machine is not
evaluated — the phase, trial index, win record and blank stamp are all
unchanged and the latch stays set — while telemetry is still read and
exactly one command frame is still transmitted; the state machine is
still evaluated on the Pause rising-edge tick itself, and again on the
Resume-edge tick itself rather than the one after. -/
theorem C6_paused_frozen (K : Consts) (c : Controller) (t : GameState)
    (hp : c.is_paused = true) (hr : c.triggers.resume = false) :
    (tick K c t).ctrl.phase = c.phase ∧
    (tick K c t).ctrl.current_trial_index = c.current_trial_index ∧
    (tick K c t).ctrl.inferred_win = c.inferred_win ∧
    (tick K c t).ctrl.blank_start_frame = c.blank_start_frame ∧
    (tick K c t).ctrl.is_paused = true ∧
    (tick K c t).ops = [ShmOp.writeCommands (tick K c t).frame] := by
  rw [tick_paused K c t hp hr]
  exact ⟨rfl, rfl, rfl, rfl, hp, rfl⟩

/-- A concrete paused controller in Playing with a winning check
armed, which the paused tick must ignore. -/
def c6w : Controller :=
  { phase := .playing
    inputs := noInputs
    triggers := { Triggers.cleared with check := true }
    trials := [trialA]
    current_trial_index := 0
    blank_start_frame := 0
    inferred_win := false
    paused_state := none
    is_paused := true }

/-- Witness for the amended C6 on a concrete paused tick. -/
theorem C6_paused_frozen_witness :
    (tick K0 c6w t6x).ctrl.phase = c6w.phase ∧
    (tick K0 c6w t6x).ctrl.current_trial_index = c6w.current_trial_index ∧
    (tick K0 c6w t6x).ctrl.inferred_win = c6w.inferred_win ∧
    (tick K0 c6w t6x).ctrl.blank_start_frame = c6w.blank_start_frame ∧
    (tick K0 c6w t6x).ctrl.is_paused = true ∧
    (tick K0 c6w t6x).ops = [ShmOp.writeCommands (tick K0 c6w t6x).frame] :=
  C6_paused_frozen K0 c6w t6x rfl rfl

/-! ### Claim C4 -/

/-- A concrete controller about to retry (two trials, index 1). -/
def c4x : Controller :=
  { phase := .playing
    inputs := noInputs
    triggers := Triggers.cleared
    trials := [trialA, trialB]
    current_trial_index := 1
    blank_start_frame := 0
    inferred_win := false
    paused_state := none
    is_paused := false }

/-- Counterexample to C4 as stated: the Retry action issues its
trial-config write as its only shared-memory call — no commands write
is issued immediately before it inside that action (`trigger_retry`
calls `write_reset_config` directly, lines 706–718). -/
theorem C4_cex :
    (trigger_retry c4x).2.1 = [ShmOp.writeConfig trialA] := rfl

/-- Claim C4 (amended): only the out-of-band reset-key action issues a
commands write immediately before its config write; the Retry action
issues its config write with no commands write in the same action, and
the win-path tick issues its config write before (not after) that
tick's own command transmission — both rely on the once-per-tick
command writes of earlier ticks to have advanced the engine's sequence
counter past zero. -/
theorem C4_cfg_write_ordering (K : Consts) (c : Controller) (t : GameState)
    (hph : c.phase = .animating) (ha : t.is_animating = false)
    (hiw : c.inferred_win = true) (hp : c.is_paused = false) :
    (trigger_reset_config c).2 =
      [ShmOp.writeCommands (resetCmdFrame c),
       ShmOp.writeConfig (trialAt c.trials c.current_trial_index)] ∧
    (trigger_retry c).2.1 = [ShmOp.writeConfig (activeTrial c)] ∧
    (tick K c t).ops =
      [ShmOp.writeConfig (trialAt c.trials (c.current_trial_index + 1)),
       ShmOp.writeCommands (tick K c t).frame] := by
  refine ⟨rfl, rfl, ?_⟩
  obtain ⟨ph, ins, trg, trls, idx, bsf, iw, ps, ip⟩ := c
  simp only at hph ha hiw hp
  subst hph hiw hp
  cases hpp : trg.pause <;>
    simp [tick, fsmStep, ha, hpp, applyAutos, sendFrame, trialAt]

/-- A concrete controller mid-animation after an inferred win, used to
instantiate the ordering theorem. -/
def c4w : Controller :=
  { phase := .animating
    inputs := noInputs
    triggers := Triggers.cleared
    trials := [trialA, trialB]
    current_trial_index := 1
    blank_start_frame := 0
    inferred_win := true
    paused_state := none
    is_paused := false }

/-- Witness for the amended C4 at a concrete end-of-animation tick. -/
theorem C4_cfg_write_ordering_witness :
    (trigger_reset_config c4w).2 =
      [ShmOp.writeCommands (resetCmdFrame c4w),
       ShmOp.writeConfig (trialAt c4w.trials c4w.current_trial_index)] ∧
    (trigger_retry c4w).2.1 = [ShmOp.writeConfig (activeTrial c4w)] ∧
    (tick K0 c4w t3w).ops =
      [ShmOp.writeConfig (trialAt c4w.trials (c4w.current_trial_index + 1)),
       ShmOp.writeCommands (tick K0 c4w t3w).frame] :=
  C4_cfg_write_ordering K0 c4w t3w rfl rfl rfl rfl

/-! ### Claim C7 -/

/-- A concrete controller with two trials and index 1, whose active
trial is the first record. -/
def c7x : Controller :=
  { phase := .playing
    inputs := noInputs
    triggers := Triggers.cleared
    trials := [trialA, trialB]
    current_trial_index := 1
    blank_start_frame := 3
    inferred_win := false
    paused_state := none
    is_paused := false }

/-- Counterexample to C7 as stated: invoking Retry at a concrete state
issues exactly one shared-memory call, the trial-config write of the
active trial — the claimed commands write preceding it does not
exist in the action. -/
theorem C7_cex :
    (trigger_retry c7x).2.1 = [ShmOp.writeConfig trialA] ∧
    (trigger_retry c7x).1.is_paused = true := ⟨rfl, rfl⟩

/-- Claim C7 (amended): Retry, independently of the pause latch, sets
paused, snapshots the active trial (index `(i-1) mod L`, its
start_orient, its config) into the snapshot slot, issues the active
trial's original config as its only write (with no commands write in
the same action), arms reset and blank pulses for the same tick,
schedules exactly one deferred unblank that re-arms one further blank
pulse, and leaves the machine paused and phase-frozen on every
following tick until a Resume edge. -/
theorem C7_retry (K : Consts) (c : Controller)
    (h : c.trials ≠ []) (hres : c.triggers.resume = false) :
    (trigger_retry c).1.is_paused = true ∧
    (trigger_retry c).1.paused_state =
      some ⟨activeIdx c.current_trial_index c.trials.length,
            (activeTrial c).start_orient, activeTrial c⟩ ∧
    (trigger_retry c).2.1 = [ShmOp.writeConfig (activeTrial c)] ∧
    (trigger_retry c).1.triggers.reset = true ∧
    (trigger_retry c).1.triggers.blank = true ∧
    (trigger_retry c).2.2 = [Deferred.unblank] ∧
    (∀ c' : Controller, (unblank_callback c').triggers.blank = true) ∧
    (∀ t, (tick K (trigger_retry c).1 t).ctrl.phase = c.phase) ∧
    (∀ t, (tick K (trigger_retry c).1 t).ctrl.current_trial_index =
      c.current_trial_index) := by
  refine ⟨rfl, rfl, rfl, rfl, rfl, rfl, fun c' => rfl, fun t => ?_, fun t => ?_⟩ <;>
    rw [tick_paused K (trigger_retry c).1 t rfl (by simpa [trigger_retry] using hres)] <;>
    rfl

/-- A concrete unpaused controller for the retry witness. -/
def c7w : Controller :=
  { phase := .playing
    inputs := noInputs
    triggers := Triggers.cleared
    trials := [trialA, trialB]
    current_trial_index := 1
    blank_start_frame := 0
    inferred_win := false
    paused_state := none
    is_paused := false }

/-- Witness for the amended C7 at a concrete retry invocation. -/
theorem C7_retry_witness :
    (trigger_retry c7w).1.is_paused = true ∧
    (trigger_retry c7w).1.paused_state =
      some ⟨activeIdx c7w.current_trial_index c7w.trials.length,
            (activeTrial c7w).start_orient, activeTrial c7w⟩ ∧
    (trigger_retry c7w).2.1 = [ShmOp.writeConfig (activeTrial c7w)] ∧
    (trigger_retry c7w).1.triggers.reset = true ∧
    (trigger_retry c7w).1.triggers.blank = true ∧
    (trigger_retry c7w).2.2 = [Deferred.unblank] ∧
    (∀ c' : Controller, (unblank_callback c').triggers.blank = true) ∧
    (∀ t, (tick K0 (trigger_retry c7w).1 t).ctrl.phase = c7w.phase) ∧
    (∀ t, (tick K0 (trigger_retry c7w).1 t).ctrl.current_trial_index =
      c7w.current_trial_index) :=
  C7_retry K0 c7w (List.cons_ne_nil _ _) rfl

/-! ### Claim C10 -/

/-- Claim C10: Retry is frame-preserving on the trial queue and the
show state — the trial list, trial index, phase, inputs, blank stamp
and win record are unchanged; only the pause latch, the snapshot slot
(holding the active trial's record by value), the pulse triggers and
the single scheduled deferred blank change. -/
theorem C10_retry_frame (c : Controller) (h : c.trials ≠ []) :
    (trigger_retry c).1.trials = c.trials ∧
    (trigger_retry c).1.current_trial_index = c.current_trial_index ∧
    (trigger_retry c).1.phase = c.phase ∧
    (trigger_retry c).1.inputs = c.inputs ∧
    (trigger_retry c).1.blank_start_frame = c.blank_start_frame ∧
    (trigger_retry c).1.inferred_win = c.inferred_win ∧
    (trigger_retry c).1.is_paused = true ∧
    (trigger_retry c).1.paused_state =
      some ⟨activeIdx c.current_trial_index c.trials.length,
            (activeTrial c).start_orient, activeTrial c⟩ ∧
    (trigger_retry c).1.triggers =
      { c.triggers with retry := true, reset := true, blank := true } ∧
    (trigger_retry c).2.2 = [Deferred.unblank] :=
  ⟨rfl, rfl, rfl, rfl, rfl, rfl, rfl, rfl, rfl, rfl⟩

/-- A concrete controller for the C10 witness, distinct from the C7
fixture. -/
def c10w : Controller :=
  { phase := .animating
    inputs := noInputs
    triggers := Triggers.cleared
    trials := [trialA, trialB]
    current_trial_index := 2
    blank_start_frame := 8
    inferred_win := true
    paused_state := none
    is_paused := false }

/-- Witness for C10 at a concrete retry invocation. -/
theorem C10_retry_frame_witness :
    (trigger_retry c10w).1.trials = c10w.trials ∧
    (trigger_retry c10w).1.current_trial_index = c10w.current_trial_index ∧
    (trigger_retry c10w).1.phase = c10w.phase ∧
    (trigger_retry c10w).1.inputs = c10w.inputs ∧
    (trigger_retry c10w).1.blank_start_frame = c10w.blank_start_frame ∧
    (trigger_retry c10w).1.inferred_win = c10w.inferred_win ∧
    (trigger_retry c10w).1.is_paused = true ∧
    (trigger_retry c10w).1.paused_state =
      some ⟨activeIdx c10w.current_trial_index c10w.trials.length,
            (activeTrial c10w).start_orient, activeTrial c10w⟩ ∧
    (trigger_retry c10w).1.triggers =
      { c10w.triggers with retry := true, reset := true, blank := true } ∧
    (trigger_retry c10w).2.2 = [Deferred.unblank] :=
  C10_retry_frame c10w (List.cons_ne_nil _ _)

/-! ### Claim C8 -/

/-- Claim C8 (exhibiting the code bug): a missing/unreadable source
and a malformed line both yield the surfaced default singleton as the
claim requires, but an existing, readable source with no non-blank
lines yields an EMPTY queue logged as a successful load of 0 trials —
not the default singleton — after which every `% len(self.trials)`
lookup divides by zero. -/
theorem C8_empty_source (K : Consts) :
    load_trials K .unreadable = ([K.defaultConfig], .failed) ∧
    (∀ rest, load_trials K (.readable (.bad :: rest)) = ([K.defaultConfig], .failed)) ∧
    load_trials K (.readable []) = ([], .loaded 0) := by
  refine ⟨rfl, fun rest => rfl, rfl⟩

/-! ### Claim C9 -/

/-- `advance` only increments the index. -/
theorem TrialQueue.advanceN_index (q : TrialQueue) (n : ℕ) :
    (q.advanceN n).index = q.index + n := by
  induction n with
  | zero => rfl
  | succ n ih => simp [TrialQueue.advanceN, TrialQueue.advance, ih]; omega

/-- `advance` never touches the record list. -/
theorem TrialQueue.advanceN_trials (q : TrialQueue) (n : ℕ) :
    (q.advanceN n).trials = q.trials := by
  induction n with
  | zero => rfl
  | succ n ih => simp [TrialQueue.advanceN, TrialQueue.advance, ih]

/-- Claim C9: from a fresh queue over a non-empty list, N calls to
`advance` leave the record list untouched, leave the cyclic index
congruent to `N mod L`, make `current` read position `N mod L` and
make `active` read position `(N-1) mod L` (Euclidean modulus, so the
fresh queue's active position is `L-1`). -/
theorem C9_queue_advance (ts : List TrialConfig) (N : ℕ) (h : ts ≠ []) :
    (TrialQueue.advanceN ⟨ts, 0⟩ N).trials = ts ∧
    (TrialQueue.advanceN ⟨ts, 0⟩ N).index % ts.length = N % ts.length ∧
    (TrialQueue.advanceN ⟨ts, 0⟩ N).current = ts.getD (N % ts.length) junkTrial ∧
    (TrialQueue.advanceN ⟨ts, 0⟩ N).active =
      ts.getD ((((N : ℤ) - 1) % (ts.length : ℤ)).toNat) junkTrial := by
  have hi := TrialQueue.advanceN_index ⟨ts, 0⟩ N
  have ht := TrialQueue.advanceN_trials ⟨ts, 0⟩ N
  simp only at hi ht
  refine ⟨ht, ?_, ?_, ?_⟩
  · rw [hi, Nat.zero_add]
  · rw [TrialQueue.current, hi, ht, Nat.zero_add]
  · rw [TrialQueue.active, hi, ht, activeIdx, Nat.zero_add]

/-- Witness for C9: a fresh two-record queue advanced three times
reads the second record as current and the first as active. -/
theorem C9_queue_advance_witness :
    (TrialQueue.advanceN ⟨[trialA, trialB], 0⟩ 3).trials = [trialA, trialB] ∧
    (TrialQueue.advanceN ⟨[trialA, trialB], 0⟩ 3).index % [trialA, trialB].length =
      3 % [trialA, trialB].length ∧
    (TrialQueue.advanceN ⟨[trialA, trialB], 0⟩ 3).current =
      [trialA, trialB].getD (3 % [trialA, trialB].length) junkTrial ∧
    (TrialQueue.advanceN ⟨[trialA, trialB], 0⟩ 3).active =
      [trialA, trialB].getD ((((3 : ℤ) - 1) % (([trialA, trialB].length : ℕ) : ℤ)).toNat)
        junkTrial :=
  C9_queue_advance [trialA, trialB] 3 (List.cons_ne_nil _ _)

end MonkeyGame
